import Mathlib

/-!
Shallow embedding of `src/main2.py` (Azure cost monitoring report).

Modelling conventions:
- Floating-point costs are modelled as rationals (`ℚ`).
- An API response row is a list of cells (`Row`); a cell is either a
  number or a string, matching the JSON values the code consumes.
- The `properties` object of a response is `RangeProps`, keeping only the
  two keys the code reads (`columns`, `rows`); each is `Option` so that a
  missing key is representable. A Python-falsy `properties` value (empty
  dict) corresponds to both keys absent (`RangeProps.isFalsy`).
- Network interaction is modelled by a trace of `FetchOutcome`s: each
  HTTP request made by a fetch function consumes the next outcome of the
  trace. `time.sleep` calls are recorded as a list of slept durations.
- `datetime` arithmetic is abstracted by two parameters: `dateKey i` is
  the integer date key (`int(date.strftime("%Y%m%d"))`) and `dateStr i`
  the display string (`date.strftime("%m/%d")`) of the day `i + 1` days
  before now, exactly the two uses the code makes of a date.
- Python string formatting `f"{x:.2f}"` / `f"{x:+.2f}"` is modelled by
  rendering a sign and the value rounded to hundredths; on the exact
  decimal values the program produces this agrees with CPython.
- The failure path of the data generator executes `return None, None`,
  which returns the truthy TUPLE `(None, None)`, not a falsy `None`;
  `GenResult` keeps this distinction and `GenResult.isTruthy` reflects the
  Python truthiness the call sites test, so the TypeError crash in the
  document section loop is representable.
-/

namespace CostReport

/-- A JSON cell of a response row: number or string. -/
inductive Cell where
  | num (q : ℚ)
  | str (s : String)
deriving DecidableEq

/-- A raw response row (`properties.rows[i]` in the code). -/
abbrev Row := List Cell

/-- Numeric value of a cell (the code only reads numeric cells as numbers). -/
def Cell.toNum : Cell → ℚ
  | .num q => q
  | .str _ => 0

/-- String value of a cell (the code only lowercases string cells). -/
def Cell.toStr : Cell → String
  | .str s => s
  | .num _ => ""

/-- Python `needle in hay` substring test. -/
def strContains (hay needle : String) : Bool :=
  (List.range (hay.length + 1)).any fun i =>
    needle.toList.isPrefixOf (hay.toList.drop i)

/-- `cost = row[0]` in `process_cost_data`. -/
def rowCost (row : Row) : ℚ :=
  (row.getD 0 (.num 0)).toNum

/-- `resource_type = row[2].lower() if len(row) > 2 else ""` in `process_cost_data`. -/
def rowResourceType (row : Row) : String :=
  if 2 < row.length then ((row.getD 2 (.str "")).toStr).toLower else ""

/-- The four cost buckets of `process_cost_data` (the `costs` dict). -/
structure DailyCosts where
  databricks : ℚ
  virtualMachine : ℚ
  storage : ℚ
  others : ℚ
deriving DecidableEq

/-- The initial all-zero `costs` dict. -/
def zeroCosts : DailyCosts := ⟨0, 0, 0, 0⟩

/-- Dict access `costs[category]` by category name. -/
def DailyCosts.get (c : DailyCosts) : String → ℚ
  | "Databricks" => c.databricks
  | "Virtual Machine" => c.virtualMachine
  | "Storage" => c.storage
  | "Others" => c.others
  | _ => 0

/-- One iteration of the categorization loop of `process_cost_data`. -/
def catStep (costs : DailyCosts) (row : Row) : DailyCosts :=
  let cost := rowCost row
  let resource_type := rowResourceType row
  if strContains resource_type "databricks/workspaces" ||
     strContains resource_type "databricks/workspace" then
    { costs with databricks := costs.databricks + cost }
  else if strContains resource_type "compute/virtualmachines" ||
          strContains resource_type "microsoft.compute/virtualmachines" then
    { costs with virtualMachine := costs.virtualMachine + cost }
  else if strContains resource_type "storage/storageaccounts" ||
          strContains resource_type "microsoft.storage/storageaccounts" then
    { costs with storage := costs.storage + cost }
  else
    { costs with others := costs.others + cost }

/-- `process_cost_data(raw_data)`: fold all rows of one date into the buckets. -/
def process_cost_data (raw_data : List Row) : DailyCosts :=
  raw_data.foldl catStep zeroCosts

/-- The category a single row is bucketed into (the branch taken in `catStep`). -/
inductive Category where
  | databricks | virtualMachine | storage | others
deriving DecidableEq

/-- Which branch of the categorization conditional a row takes. -/
def rowCategory (row : Row) : Category :=
  let resource_type := rowResourceType row
  if strContains resource_type "databricks/workspaces" ||
     strContains resource_type "databricks/workspace" then .databricks
  else if strContains resource_type "compute/virtualmachines" ||
          strContains resource_type "microsoft.compute/virtualmachines" then .virtualMachine
  else if strContains resource_type "storage/storageaccounts" ||
          strContains resource_type "microsoft.storage/storageaccounts" then .storage
  else .others

/-- Add an amount to the bucket of a given category. -/
def addCat (c : Category) (q : ℚ) (costs : DailyCosts) : DailyCosts :=
  match c with
  | .databricks => { costs with databricks := costs.databricks + q }
  | .virtualMachine => { costs with virtualMachine := costs.virtualMachine + q }
  | .storage => { costs with storage := costs.storage + q }
  | .others => { costs with others := costs.others + q }

/-- The day-over-day percent change computed inline in both
`generate_data_for_subscription` and `generate_table_for_subscription`. -/
def percent_change (prev_cost curr_cost : ℚ) : ℚ :=
  if prev_cost = 0 then
    if curr_cost = 0 then 0 else 100
  else
    ((curr_cost - prev_cost) / prev_cost) * 100

/-- Two-digit zero-padded rendering of a number below 100. -/
def pad2 (n : ℤ) : String :=
  if n < 10 then "0" ++ toString n else toString n

/-- Python `f"{q:.2f}"`: no sign for nonnegative values, two decimals. -/
def fmt2 (q : ℚ) : String :=
  let sign := if q < 0 then "-" else ""
  let cents : ℤ := round (|q| * 100)
  sign ++ toString (cents / 100) ++ "." ++ pad2 (cents % 100)

/-- Python `f"${q:.2f}"` used for cost cells. -/
def moneyFmt (q : ℚ) : String := "$" ++ fmt2 q

/-- Python `f"{q:+.2f}%"` used for percent cells: explicit sign, two decimals. -/
def formatPct (q : ℚ) : String :=
  let sign := if q < 0 then "-" else "+"
  let cents : ℤ := round (|q| * 100)
  sign ++ toString (cents / 100) ++ "." ++ pad2 (cents % 100) ++ "%"

/-- The `properties` object of a range response, restricted to the keys the
code reads. `none` models an absent key; both absent models a
Python-falsy (empty) properties dict. `columns` keeps only the `name`
field of each column, the only field the code reads. -/
structure RangeProps where
  columns : Option (List String)
  rows : Option (List Row)
deriving DecidableEq

/-- Python truthiness test `if not response_data` on the properties dict. -/
def RangeProps.isFalsy (p : RangeProps) : Bool :=
  p.columns.isNone && p.rows.isNone

/-- `next((i for i, col in enumerate(columns) if col["name"] == name), default)`. -/
def findColIdx (columns : List String) (name : String) (dflt : Nat) : Nat :=
  match columns.findIdx? (fun col => col = name) with
  | some i => i
  | none => dflt

/-- Append a row under its date key, preserving dict insertion semantics:
`daily_data.setdefault(date, []).append(row)` in effect. -/
def insertRow : List (Cell × List Row) → Cell → Row → List (Cell × List Row)
  | [], k, r => [(k, [r])]
  | (k', rs) :: rest, k, r =>
    if k = k' then (k', rs ++ [r]) :: rest else (k', rs) :: insertRow rest k r

/-- `daily_data.get(date_key, [])`. -/
def lookupRows : List (Cell × List Row) → Cell → List Row
  | [], _ => []
  | (k', rs) :: rest, k => if k = k' then rs else lookupRows rest k

/-- `parse_range_response(response_data, num_days)`: locate column indices by
name (with positional fallbacks 0/1/2) and group rows by the date column.
Note `cost_idx` and `resource_idx` are computed but never used, exactly as
in the source. -/
def parse_range_response (response_data : RangeProps) (num_days : Nat) :
    List (Cell × List Row) :=
  match response_data.rows with
  | none => []
  | some rows =>
    let columns := response_data.columns.getD []
    let cost_idx := findColIdx columns "Cost" 0
    let date_idx := findColIdx columns "UsageDate" 1
    let resource_idx := findColIdx columns "ResourceType" 2
    let _ := cost_idx
    let _ := resource_idx
    rows.foldl (fun daily_data row =>
      insertRow daily_data (row.getD date_idx (.str "")) row) []

/-- The per-day breakdown loop shared by both generators:
`for i in range(num_days - 1, -1, -1): costs = process_cost_data(daily_data.get(date_key, []))`. -/
def compute_all_costs (daily_data : List (Cell × List Row)) (dateKey : Nat → ℚ)
    (num_days : Nat) : List DailyCosts :=
  ((List.range num_days).reverse).map fun i =>
    process_cost_data (lookupRows daily_data (Cell.num (dateKey i)))

/-- The `date_strings` list built in the same loop (oldest day first). -/
def window_date_strings (dateStr : Nat → String) (num_days : Nat) : List String :=
  ((List.range num_days).reverse).map dateStr

/-- Category selection of `generate_data_for_subscription`: drop Databricks
for the subscription named "main" when no day has positive Databricks cost. -/
def active_categories (subscription_name : String) (all_costs : List DailyCosts) :
    List String :=
  if subscription_name.toLower = "main" then
    if all_costs.any (fun costs => decide (0 < costs.databricks)) then
      ["Databricks", "Virtual Machine", "Storage", "Others"]
    else
      ["Virtual Machine", "Storage", "Others"]
  else
    ["Databricks", "Virtual Machine", "Storage", "Others"]

/-- The cost-table loop of `generate_data_for_subscription`. -/
def build_cost_table (date_strings : List String) (all_costs : List DailyCosts)
    (categories : List String) : List (List String) :=
  (date_strings.zip all_costs).map fun p =>
    p.1 :: categories.map fun category => moneyFmt (p.2.get category)

/-- The percent-table loop of `generate_data_for_subscription`: row `i`
(for `i = 1 .. N-1`) pairs `all_costs[i-1]` with `all_costs[i]` under
`date_strings[i]`. -/
def build_percent_table (date_strings : List String) (all_costs : List DailyCosts)
    (categories : List String) : List (List String) :=
  (date_strings.tail.zip (all_costs.zip all_costs.tail)).map fun p =>
    p.1 :: categories.map fun category =>
      formatPct (percent_change (p.2.1.get category) (p.2.2.get category))

/-- The value returned by `generate_data_for_subscription` on success. -/
structure SubData where
  cost_table : List (List String)
  percent_table : List (List String)
  headers : List String
  date_strings : List String
deriving DecidableEq

/-- The value returned by `generate_data_for_subscription`. On the failure
path the code executes `return None, None`, which returns the TUPLE
`(None, None)` — a truthy Python value, not a falsy `None`;
`GenResult.failureTuple` stands for that tuple. On success the code returns
the (truthy) data dict, `GenResult.data`. -/
inductive GenResult where
  | failureTuple
  | data (d : SubData)
deriving DecidableEq

/-- Python truthiness of a stored generator result at the call-site checks
`if data:` and `all_data[sub_name]`: a non-empty tuple and a non-empty dict
are both truthy. -/
def GenResult.isTruthy : GenResult → Bool
  | .failureTuple => true
  | .data _ => true

/-- `generate_data_for_subscription`, with the fetch result passed in
(`response_data` is what `get_cost_data_range` returned) and the date
functions abstracted. Returns the failure tuple `(None, None)` when the
fetch failed or the properties are falsy. -/
def generate_data_for_subscription (subscription_name : String) (num_days : Nat)
    (response_data : Option RangeProps) (dateKey : Nat → ℚ) (dateStr : Nat → String) :
    GenResult :=
  match response_data with
  | none => .failureTuple
  | some rd =>
    if rd.isFalsy then .failureTuple
    else
      let daily_data := parse_range_response rd num_days
      let date_strings := window_date_strings dateStr num_days
      let all_costs := compute_all_costs daily_data dateKey num_days
      let categories := active_categories subscription_name all_costs
      .data { cost_table := build_cost_table date_strings all_costs categories
              percent_table := build_percent_table date_strings all_costs categories
              headers := "Date" :: categories
              date_strings := date_strings }

/-- Console output of `generate_table_for_subscription` (the two printed
tables and their headers). -/
structure ConsoleOut where
  table_data : List (List String)
  percent_table : List (List String)
  headers : List String
deriving DecidableEq

/-- The fixed console category list. -/
def console_categories : List String :=
  ["Databricks", "Virtual Machine", "Storage", "Others"]

/-- The fixed console headers. -/
def console_headers : List String :=
  ["Date", "Databricks", "Virtual Machine", "Storage", "Others"]

/-- The console percent-change loop: row `i` (for `i = 1 .. N-1`) is dated
`len(all_costs) - i` days back and always spans the fixed four categories. -/
def console_percent_table (dateStr : Nat → String) (all_costs : List DailyCosts) :
    List (List String) :=
  (List.range (all_costs.length - 1)).map fun j =>
    let i := j + 1
    dateStr (all_costs.length - i - 1) ::
      console_categories.map fun category =>
        formatPct (percent_change ((all_costs.getD (i - 1) zeroCosts).get category)
          ((all_costs.getD i zeroCosts).get category))

/-- `generate_table_for_subscription` (console path), with the fetch result
passed in. Returns `none` when the code prints the failure line and returns
without tables. The exclusion rule is not consulted here: rows and headers
always carry the fixed four categories. -/
def generate_table_for_subscription (subscription_name : String) (num_days : Nat)
    (response_data : Option RangeProps) (dateKey : Nat → ℚ) (dateStr : Nat → String) :
    Option ConsoleOut :=
  match response_data with
  | none => none
  | some rd =>
    if rd.isFalsy then none
    else
      let _ := subscription_name
      let daily_data := parse_range_response rd num_days
      let all_costs := compute_all_costs daily_data dateKey num_days
      let table_data := ((List.range num_days).reverse).map fun i =>
        let costs := process_cost_data (lookupRows daily_data (Cell.num (dateKey i)))
        [dateStr i, moneyFmt costs.databricks, moneyFmt costs.virtualMachine,
         moneyFmt costs.storage, moneyFmt costs.others]
      some { table_data := table_data
             percent_table := console_percent_table dateStr all_costs
             headers := console_headers }

/-- Outcome of one HTTP POST to the cost API, as observed by the code:
a timeout, another network error, or a response with a status code, an
optional Retry-After header value, and a body (`none` when the body is
malformed JSON or lacks the `properties` key). -/
inductive FetchOutcome where
  | timeout
  | netError
  | response (status : Nat) (retryAfter : Option Nat) (body : Option RangeProps)
deriving DecidableEq

/-- `get_cost_data_range`: each request consumes the next trace outcome.
On 429 it sleeps `Retry-After` (default 60) and recurses unconditionally;
on any error it returns `None`; otherwise it returns the parsed properties.
Result: (durations slept, returned value). An exhausted trace (never the
case for the finite executions the theorems consider) yields `None`. -/
def get_cost_data_range : List FetchOutcome → List Nat × Option RangeProps
  | [] => ([], none)
  | o :: rest =>
    match o with
    | .timeout => ([], none)
    | .netError => ([], none)
    | .response status retryAfter body =>
      if status = 429 then
        let retry_after := retryAfter.getD 60
        let p := get_cost_data_range rest
        (retry_after :: p.1, p.2)
      else if 400 ≤ status then ([], none)
      else
        match body with
        | some props => ([], some props)
        | none => ([], none)

/-- `get_cost_data` (single-day fetch): bounded retries. On 429 with
`retry_count < max_retries` it sleeps `Retry-After` (default `2 ** retry_count`)
and recurses with `retry_count + 1`; at the cap, or on any error, it returns
`[]`. On success it returns `properties.rows`. -/
def get_cost_data : List FetchOutcome → Nat → Nat → List Nat × List Row
  | [], _, _ => ([], [])
  | o :: rest, retry_count, max_retries =>
    match o with
    | .timeout => ([], [])
    | .netError => ([], [])
    | .response status retryAfter body =>
      if status = 429 then
        if retry_count < max_retries then
          let retry_after := retryAfter.getD (2 ^ retry_count)
          let p := get_cost_data rest (retry_count + 1) max_retries
          (retry_after :: p.1, p.2)
        else ([], [])
      else if 400 ≤ status then ([], [])
      else
        match body with
        | some props => ([], props.rows.getD [])
        | none => ([], [])

/-- A single-request failure of the range fetch that is not rate limiting:
timeout, network error, non-2xx error status, or a well-status response
whose body is missing/malformed. -/
inductive NonRateLimitFailure : List FetchOutcome → Prop where
  | timeout : NonRateLimitFailure [.timeout]
  | netError : NonRateLimitFailure [.netError]
  | badStatus (status : Nat) (retryAfter : Option Nat) (body : Option RangeProps) :
      status ≠ 429 → 400 ≤ status →
      NonRateLimitFailure [.response status retryAfter body]
  | badBody (status : Nat) (retryAfter : Option Nat) :
      status < 400 →
      NonRateLimitFailure [.response status retryAfter none]

/-- Main-loop subscription order. -/
def processOrder : List String := ["main", "prod", "dev", "test"]

/-- Word-document section order. -/
def docOrder : List String := ["prod", "dev", "test", "main"]

/-- Console pass of the main loop: one `generate_table_for_subscription`
result per subscription, in processing order. -/
def runConsole (fetch : String → Option RangeProps) (num_days : Nat)
    (dateKey : Nat → ℚ) (dateStr : Nat → String) :
    List (String × Option ConsoleOut) :=
  processOrder.map fun sub_name =>
    (sub_name, generate_table_for_subscription sub_name num_days (fetch sub_name)
      dateKey dateStr)

/-- Data-collection pass of the main loop:
`data = generate_data_for_subscription(...)` then
`if data: all_data[sub_name] = data`. Both possible return values are
truthy (the failure value is the tuple `(None, None)`), so every
subscription is stored, failures included. -/
def buildAllData (fetch : String → Option RangeProps) (num_days : Nat)
    (dateKey : Nat → ℚ) (dateStr : Nat → String) : List (String × GenResult) :=
  processOrder.filterMap fun sub_name =>
    let data := generate_data_for_subscription sub_name num_days (fetch sub_name)
      dateKey dateStr
    if data.isTruthy then some (sub_name, data) else none

/-- Dict lookup `all_data[sub_name]` (keys are unique by construction). -/
def lookupSub : List (String × GenResult) → String → Option GenResult
  | [], _ => none
  | (k, v) :: rest, sub_name => if sub_name = k then some v else lookupSub rest sub_name

/-- One iteration of the section loop of `create_word_document`: when
`sub_name in all_data and all_data[sub_name]` (truthy), the code reads
`data["cost_table"]` — which raises an uncaught TypeError when the stored
value is the failure tuple `(None, None)`. `none` is the crashed state. -/
def doc_section_step (all_data : List (String × GenResult))
    (acc : Option (List (String × SubData))) (sub_name : String) :
    Option (List (String × SubData)) :=
  match acc with
  | none => none
  | some sections =>
    match lookupSub all_data sub_name with
    | none => some sections
    | some r =>
      if r.isTruthy then
        match r with
        | .data d => some (sections ++ [(sub_name, d)])
        | .failureTuple => none
      else some sections

/-- The section loop of `create_word_document` followed by `doc.save`: the
sections of the saved document, or `none` when the loop raised (TypeError
on the failure tuple) and the run aborted before saving any document. -/
def create_word_document (all_data : List (String × GenResult)) :
    Option (List (String × SubData)) :=
  docOrder.foldl (doc_section_step all_data) (some [])

end CostReport

namespace CostReport

/-! ### Categorizer algebra -/

/-- Total of the four buckets. -/
def DailyCosts.total (c : DailyCosts) : ℚ :=
  c.databricks + c.virtualMachine + c.storage + c.others

lemma catStep_eq (costs : DailyCosts) (row : Row) :
    catStep costs row = addCat (rowCategory row) (rowCost row) costs := by
  simp only [catStep, rowCategory, addCat]
  split_ifs <;> rfl

lemma addCat_comm (c₁ c₂ : Category) (q₁ q₂ : ℚ) (s : DailyCosts) :
    addCat c₁ q₁ (addCat c₂ q₂ s) = addCat c₂ q₂ (addCat c₁ q₁ s) := by
  cases c₁ <;> cases c₂ <;> simp [addCat] <;> ring

lemma catStep_comm (s : DailyCosts) (r₁ r₂ : Row) :
    catStep (catStep s r₁) r₂ = catStep (catStep s r₂) r₁ := by
  rw [catStep_eq, catStep_eq, catStep_eq, catStep_eq, addCat_comm]

lemma total_addCat (c : Category) (q : ℚ) (s : DailyCosts) :
    (addCat c q s).total = s.total + q := by
  cases c <;> simp [addCat, DailyCosts.total] <;> ring

lemma total_foldl (rows : List Row) :
    ∀ s : DailyCosts, (rows.foldl catStep s).total = s.total + (rows.map rowCost).sum := by
  induction rows with
  | nil => intro s; simp
  | cons r rs ih =>
    intro s
    simp only [List.foldl_cons, List.map_cons, List.sum_cons]
    rw [ih, catStep_eq, total_addCat]
    ring

/-- C2: for every sequence of cost rows for one date, the four category
buckets produced by `process_cost_data` sum exactly to the sum of all input
row costs — no cost is dropped and none is counted twice. -/
theorem c2_conservation (rows : List Row) :
    (process_cost_data rows).databricks + (process_cost_data rows).virtualMachine +
      (process_cost_data rows).storage + (process_cost_data rows).others =
      (rows.map rowCost).sum := by
  have h := total_foldl rows zeroCosts
  simpa [process_cost_data, DailyCosts.total, zeroCosts] using h

lemma foldl_catStep_perm {rows rows' : List Row} (h : rows.Perm rows') :
    ∀ s : DailyCosts, rows.foldl catStep s = rows'.foldl catStep s := by
  induction h with
  | nil => intro s; rfl
  | cons x _ ih => intro s; simp only [List.foldl_cons]; exact ih _
  | swap x y l => intro s; simp only [List.foldl_cons]; rw [catStep_comm]
  | trans _ _ ih₁ ih₂ => intro s; rw [ih₁, ih₂]

/-- C8: the per-date breakdown produced by `process_cost_data` is invariant
under permutation of the input rows: accumulation per category is
commutative/associative, so response row order does not matter. -/
theorem c8_order_invariance (rows rows' : List Row) (h : rows.Perm rows') :
    process_cost_data rows = process_cost_data rows' :=
  foldl_catStep_perm h zeroCosts

/-- Sample rows for the C8 witness. -/
def rowVm : Row := [Cell.num 3, Cell.num 1, Cell.str "Microsoft.Compute/virtualMachines"]

/-- Sample rows for the C8 witness. -/
def rowSt : Row := [Cell.num 4, Cell.num 1, Cell.str "Microsoft.Storage/storageAccounts"]

theorem c8_order_invariance_witness :
    [rowVm, rowSt].Perm [rowSt, rowVm] ∧
      process_cost_data [rowVm, rowSt] = process_cost_data [rowSt, rowVm] :=
  ⟨List.Perm.swap rowSt rowVm [],
    c8_order_invariance [rowVm, rowSt] [rowSt, rowVm] (List.Perm.swap rowSt rowVm [])⟩

/-- C3: the day-over-day delta is 0 when both costs are 0, exactly +100 when
the previous cost is 0 and the current is not, otherwise
`((curr - prev) / prev) * 100`; rendered with an explicit sign and two
decimals: delta(0,0) = 0 (rendered "+0.00%"), delta(0,5) = +100.00%,
delta(100,150) = +50.00%, delta(100,50) = -50.00%. -/
theorem c3_delta_calculator :
    (∀ prev_cost curr_cost : ℚ, percent_change prev_cost curr_cost =
      if prev_cost = 0 then (if curr_cost = 0 then 0 else 100)
      else ((curr_cost - prev_cost) / prev_cost) * 100) ∧
    percent_change 0 0 = 0 ∧
    formatPct (percent_change 0 0) = "+0.00%" ∧
    formatPct (percent_change 0 5) = "+100.00%" ∧
    formatPct (percent_change 100 150) = "+50.00%" ∧
    formatPct (percent_change 100 50) = "-50.00%" := by
  refine ⟨fun p c => rfl, by with_unfolding_all rfl, by with_unfolding_all rfl,
    by with_unfolding_all rfl, by with_unfolding_all rfl, by with_unfolding_all rfl⟩

/-- C6: on HTTP 429 the range fetch sleeps Retry-After (60 when absent) and
re-issues unconditionally with no bound (any number k of consecutive 429s is
retried through), while the single-day fetch caps at `max_retries = 3`,
sleeping `2 ^ attempt` seconds when no Retry-After header is present, and
returns an empty result at the cap. -/
theorem c6_retry_policy :
    (∀ (k : Nat) (p : RangeProps),
      get_cost_data_range
          (List.replicate k (FetchOutcome.response 429 none none) ++
            [FetchOutcome.response 200 none (some p)]) =
        (List.replicate k 60, some p)) ∧
    (∀ (h : Nat) (b : Option RangeProps) (t : List FetchOutcome),
      get_cost_data_range (FetchOutcome.response 429 (some h) b :: t) =
        (h :: (get_cost_data_range t).1, (get_cost_data_range t).2)) ∧
    get_cost_data (List.replicate 4 (FetchOutcome.response 429 none none)) 0 3 =
      ([1, 2, 4], []) := by
  refine ⟨?_, ?_, by with_unfolding_all rfl⟩
  · intro k p
    induction k with
    | zero => rfl
    | succ k ih =>
      rw [List.replicate_succ, List.cons_append]
      simp only [get_cost_data_range, if_pos rfl, Option.getD_none]
      rw [ih]
      simp [List.replicate_succ]
  · intro h b t
    rfl

/-! ### C5: column positions (code bug) -/

/-- A response schema naming "Cost" away from position 0: the failing input
for C5. The name-resolved cost position is 1 (holding the value 7), but
position 0 holds the usage date 20250101. -/
def c5_props : RangeProps :=
  ⟨some ["UsageDate", "Cost", "ResourceType"],
   some [[Cell.num 9, Cell.num 7, Cell.str "Microsoft.Storage/storageAccounts"]]⟩

/-- C5: `parse_range_response` resolves the "Cost" column to position 1 by
name, yet the cost consumed downstream (`row[0]` in `process_cost_data`) is
the value at fixed position 0 — the usage date 9, not the cost 7 at
the name-resolved position. The claimed name-based consumption does not
happen: `cost_idx` and `resource_idx` are computed and never used. -/
theorem c5_fixed_position_bug :
    findColIdx ["UsageDate", "Cost", "ResourceType"] "Cost" 0 = 1 ∧
    lookupRows (parse_range_response c5_props 1) (Cell.num 9) =
      [[Cell.num 9, Cell.num 7, Cell.str "Microsoft.Storage/storageAccounts"]] ∧
    rowCost [Cell.num 9, Cell.num 7, Cell.str "Microsoft.Storage/storageAccounts"] = 9 ∧
    (([Cell.num 9, Cell.num 7,
        Cell.str "Microsoft.Storage/storageAccounts"] : Row).getD
          (findColIdx ["UsageDate", "Cost", "ResourceType"] "Cost" 0) (Cell.num 0)).toNum = 7 ∧
    process_cost_data (lookupRows (parse_range_response c5_props 1) (Cell.num 9)) =
      ⟨0, 0, 9, 0⟩ := by
  refine ⟨rfl, by with_unfolding_all rfl, by with_unfolding_all rfl,
    by with_unfolding_all rfl, by with_unfolding_all rfl⟩

end CostReport

namespace CostReport

/-! ### Shape of the generator outputs -/

lemma generate_data_eq (name : String) (n : Nat) (rd : RangeProps)
    (dk : Nat → ℚ) (ds : Nat → String) (hf : rd.isFalsy = false) :
    generate_data_for_subscription name n (some rd) dk ds =
      GenResult.data
        { cost_table := build_cost_table (window_date_strings ds n)
            (compute_all_costs (parse_range_response rd n) dk n)
            (active_categories name (compute_all_costs (parse_range_response rd n) dk n))
          percent_table := build_percent_table (window_date_strings ds n)
            (compute_all_costs (parse_range_response rd n) dk n)
            (active_categories name (compute_all_costs (parse_range_response rd n) dk n))
          headers := "Date" ::
            active_categories name (compute_all_costs (parse_range_response rd n) dk n)
          date_strings := window_date_strings ds n } := by
  simp [generate_data_for_subscription, hf]

lemma generate_data_inv (name : String) (n : Nat) (rd : RangeProps)
    (dk : Nat → ℚ) (ds : Nat → String) (d : SubData)
    (h : generate_data_for_subscription name n (some rd) dk ds = GenResult.data d) :
    rd.isFalsy = false ∧
      d = { cost_table := build_cost_table (window_date_strings ds n)
              (compute_all_costs (parse_range_response rd n) dk n)
              (active_categories name (compute_all_costs (parse_range_response rd n) dk n))
            percent_table := build_percent_table (window_date_strings ds n)
              (compute_all_costs (parse_range_response rd n) dk n)
              (active_categories name (compute_all_costs (parse_range_response rd n) dk n))
            headers := "Date" ::
              active_categories name (compute_all_costs (parse_range_response rd n) dk n)
            date_strings := window_date_strings ds n } := by
  by_cases hf : rd.isFalsy = true
  · simp [generate_data_for_subscription, hf] at h
  · have hf' : rd.isFalsy = false := by simpa using hf
    rw [generate_data_eq name n rd dk ds hf'] at h
    exact ⟨hf', (GenResult.data.injEq _ _).mp h |>.symm⟩

lemma generate_table_eq (name : String) (n : Nat) (rd : RangeProps)
    (dk : Nat → ℚ) (ds : Nat → String) (hf : rd.isFalsy = false) :
    generate_table_for_subscription name n (some rd) dk ds =
      some { table_data := ((List.range n).reverse).map fun i =>
               let costs := process_cost_data
                 (lookupRows (parse_range_response rd n) (Cell.num (dk i)))
               [ds i, moneyFmt costs.databricks, moneyFmt costs.virtualMachine,
                moneyFmt costs.storage, moneyFmt costs.others]
             percent_table := console_percent_table ds
               (compute_all_costs (parse_range_response rd n) dk n)
             headers := console_headers } := by
  simp [generate_table_for_subscription, hf]

/-! ### List-shape lemmas -/

lemma length_window_date_strings (ds : Nat → String) (n : Nat) :
    (window_date_strings ds n).length = n := by
  simp [window_date_strings]

lemma length_compute_all_costs (m : List (Cell × List Row)) (dk : Nat → ℚ) (n : Nat) :
    (compute_all_costs m dk n).length = n := by
  simp [compute_all_costs]

lemma length_build_cost_table (dss : List String) (ac : List DailyCosts)
    (cats : List String) (h : dss.length = ac.length) :
    (build_cost_table dss ac cats).length = dss.length := by
  simp [build_cost_table, List.length_zip, h]

lemma map_headq_build_cost_table (dss : List String) (ac : List DailyCosts)
    (cats : List String) (h : dss.length ≤ ac.length) :
    (build_cost_table dss ac cats).map List.head? = dss.map some := by
  unfold build_cost_table
  rw [List.map_map]
  have h1 : (List.head? ∘ fun p : String × DailyCosts =>
      p.1 :: cats.map fun category => moneyFmt (p.2.get category)) =
      (some ∘ Prod.fst) := by
    funext p; rfl
  rw [h1, ← List.map_map, List.map_fst_zip _ _ h]

lemma length_build_percent_table (dss : List String) (ac : List DailyCosts)
    (cats : List String) (h : dss.length = ac.length) :
    (build_percent_table dss ac cats).length = ac.length - 1 := by
  simp [build_percent_table, List.length_zip, List.length_tail, h]

lemma map_headq_build_percent_table (dss : List String) (ac : List DailyCosts)
    (cats : List String) (h : dss.length = ac.length) :
    (build_percent_table dss ac cats).map List.head? = dss.tail.map some := by
  unfold build_percent_table
  rw [List.map_map]
  have h1 : (List.head? ∘ fun p : String × (DailyCosts × DailyCosts) =>
      p.1 :: cats.map fun category =>
        formatPct (percent_change (p.2.1.get category) (p.2.2.get category))) =
      (some ∘ Prod.fst) := by
    funext p; rfl
  rw [h1, ← List.map_map, List.map_fst_zip]
  simp [List.length_zip, List.length_tail, h]

lemma length_console_percent_table (ds : Nat → String) (ac : List DailyCosts) :
    (console_percent_table ds ac).length = ac.length - 1 := by
  simp [console_percent_table]

lemma lookupRows_eq_nil (m : List (Cell × List Row)) (k : Cell)
    (h : k ∉ m.map Prod.fst) : lookupRows m k = [] := by
  induction m with
  | nil => rfl
  | cons p rest ih =>
    obtain ⟨k', rs⟩ := p
    simp only [List.map_cons, List.mem_cons] at h
    push_neg at h
    rw [lookupRows, if_neg h.1]
    exact ih h.2

lemma zeroCosts_get (category : String) : zeroCosts.get category = 0 := by
  unfold DailyCosts.get
  split <;> rfl

/-! ### C4 (amended): Databricks exclusion for "main" -/

/-- C4 counterexample input: a single day whose only row is a negative
(hence nonzero) Databricks cost. -/
def c4_props : RangeProps :=
  ⟨some ["Cost", "UsageDate", "ResourceType"],
   some [[Cell.num (-5), Cell.num 1, Cell.str "Microsoft.Databricks/workspaces"]]⟩

/-- C4 counterexample date key (every day maps to key 1). -/
def c4_dateKey : Nat → ℚ := fun _ => 1

/-- C4 counterexample date string. -/
def c4_dateStr : Nat → String := fun _ => "01/01"

/-- C4 is false as stated: with a day whose Databricks cost is -5 (nonzero),
the claim requires all four categories, but the code checks `> 0` and drops
Databricks from the headers of subscription "main". -/
theorem c4_counterexample :
    (compute_all_costs (parse_range_response c4_props 1) c4_dateKey 1).map
        DailyCosts.databricks = [-5] ∧
    (-5 : ℚ) ≠ 0 ∧
    generate_data_for_subscription "main" 1 (some c4_props) c4_dateKey c4_dateStr =
      GenResult.data
        { cost_table := [["01/01", "$0.00", "$0.00", "$0.00"]]
          percent_table := []
          headers := ["Date", "Virtual Machine", "Storage", "Others"]
          date_strings := ["01/01"] } := by
  refine ⟨by with_unfolding_all rfl, by norm_num, by with_unfolding_all rfl⟩

/-- C4 (amended): for subscription "main" the Databricks category is dropped
from the document headers exactly when no day in the window has positive
Databricks cost; when some day has positive Databricks cost, or for any
subscription not named "main", all four categories are present. -/
theorem c4_exclusion_amended (n : Nat) (rd : RangeProps)
    (dk : Nat → ℚ) (ds : Nat → String) (d : SubData)
    (hmain : generate_data_for_subscription "main" n (some rd) dk ds =
      GenResult.data d) :
    (d.headers = ["Date", "Virtual Machine", "Storage", "Others"] ↔
      ∀ c ∈ compute_all_costs (parse_range_response rd n) dk n, c.databricks ≤ 0) ∧
    ((∃ c ∈ compute_all_costs (parse_range_response rd n) dk n, 0 < c.databricks) →
      d.headers = ["Date", "Databricks", "Virtual Machine", "Storage", "Others"]) ∧
    (∀ (name : String) (d' : SubData), name.toLower ≠ "main" →
      generate_data_for_subscription name n (some rd) dk ds = GenResult.data d' →
      d'.headers = ["Date", "Databricks", "Virtual Machine", "Storage", "Others"]) := by
  obtain ⟨hf, rfl⟩ := generate_data_inv _ _ _ _ _ _ hmain
  have hml : ("main" : String).toLower = "main" := by with_unfolding_all rfl
  refine ⟨?_, ?_, ?_⟩
  · by_cases hany : (compute_all_costs (parse_range_response rd n) dk n).any
        (fun costs => decide (0 < costs.databricks)) = true
    · simp only [active_categories, hml, if_pos rfl, hany, if_true]
      constructor
      · intro habs
        exact absurd habs (by simp)
      · intro hall
        obtain ⟨c, hc, hpos⟩ := List.any_eq_true.mp hany
        exact absurd (hall c hc) (by simpa using hpos)
    · simp only [active_categories, hml, if_pos rfl, hany, if_false]
      have hall : ∀ c ∈ compute_all_costs (parse_range_response rd n) dk n,
          c.databricks ≤ 0 := by
        intro c hc
        by_contra hpos
        exact hany (List.any_eq_true.mpr ⟨c, hc, by simpa using hpos⟩)
      simp [Bool.not_eq_true] at hany
      simpa using hall
  · intro ⟨c, hc, hpos⟩
    have hany : (compute_all_costs (parse_range_response rd n) dk n).any
        (fun costs => decide (0 < costs.databricks)) = true :=
      List.any_eq_true.mpr ⟨c, hc, by simpa using hpos⟩
    simp [active_categories, hml, hany]
  · intro name d' hne h'
    obtain ⟨hf', rfl⟩ := generate_data_inv _ _ _ _ _ _ h'
    simp [active_categories, hne]

end CostReport

namespace CostReport

/-! ### C7: console/document column asymmetry -/

/-- C7: on the same successful fetch, the console output always carries the
fixed four category columns (headers and every row of both tables have the
5 fixed cells), while the document output uses the exclusion-aware header
set: 4 columns (3 categories) exactly when the subscription is "main" and
no day has positive Databricks cost, 5 columns otherwise. -/
theorem c7_console_doc_asymmetry (name : String) (n : Nat) (rd : RangeProps)
    (dk : Nat → ℚ) (ds : Nat → String) (hf : rd.isFalsy = false) :
    (∃ co, generate_table_for_subscription name n (some rd) dk ds = some co ∧
      co.headers = ["Date", "Databricks", "Virtual Machine", "Storage", "Others"] ∧
      (∀ row ∈ co.table_data, row.length = 5) ∧
      (∀ row ∈ co.percent_table, row.length = 5)) ∧
    (∃ d, generate_data_for_subscription name n (some rd) dk ds = GenResult.data d ∧
      d.headers = "Date" ::
        active_categories name (compute_all_costs (parse_range_response rd n) dk n) ∧
      ((name.toLower = "main" ∧
          ∀ c ∈ compute_all_costs (parse_range_response rd n) dk n, c.databricks ≤ 0) →
        d.headers.length = 4) ∧
      (¬ (name.toLower = "main" ∧
          ∀ c ∈ compute_all_costs (parse_range_response rd n) dk n, c.databricks ≤ 0) →
        d.headers.length = 5)) := by
  constructor
  · refine ⟨_, generate_table_eq name n rd dk ds hf, rfl, ?_, ?_⟩
    · intro row hrow
      simp only [List.mem_map] at hrow
      obtain ⟨i, _, rfl⟩ := hrow
      rfl
    · intro row hrow
      simp only [console_percent_table, List.mem_map] at hrow
      obtain ⟨j, _, rfl⟩ := hrow
      simp [console_categories]
  · refine ⟨_, generate_data_eq name n rd dk ds hf, rfl, ?_, ?_⟩
    · rintro ⟨hmain, hall⟩
      have hany : (compute_all_costs (parse_range_response rd n) dk n).any
          (fun costs => decide (0 < costs.databricks)) = false := by
        rw [Bool.eq_false_iff]
        intro habs
        obtain ⟨c, hc, hpos⟩ := List.any_eq_true.mp habs
        exact absurd (hall c hc) (by simpa using hpos)
      simp [active_categories, hmain, hany]
    · intro hnot
      by_cases hmain : name.toLower = "main"
      · have hex : ∃ c ∈ compute_all_costs (parse_range_response rd n) dk n,
            0 < c.databricks := by
          by_contra hno
          push_neg at hno
          exact hnot ⟨hmain, fun c hc => (hno c hc)⟩
        obtain ⟨c, hc, hpos⟩ := hex
        have hany : (compute_all_costs (parse_range_response rd n) dk n).any
            (fun costs => decide (0 < costs.databricks)) = true :=
          List.any_eq_true.mpr ⟨c, hc, by simpa using hpos⟩
        simp [active_categories, hmain, hany]
      · simp [active_categories, hmain]

/-! ### C9: exactly N-1 delta rows -/

/-- C9: for a window of N ≥ 1 days, the document percent-change table has
exactly N-1 rows, dated by days 2..N of the window (its row dates are the
tail of the date strings: no delta row for the first day), and the console
percent-change table also has exactly N-1 rows. -/
theorem c9_delta_row_count (name : String) (n : Nat) (rd : RangeProps)
    (dk : Nat → ℚ) (ds : Nat → String) (d : SubData) (hn : 1 ≤ n)
    (h : generate_data_for_subscription name n (some rd) dk ds = GenResult.data d) :
    d.date_strings.length = n ∧
    d.cost_table.length = n ∧
    d.percent_table.length = n - 1 ∧
    d.percent_table.map List.head? = d.date_strings.tail.map some ∧
    (∀ co, generate_table_for_subscription name n (some rd) dk ds = some co →
      co.percent_table.length = n - 1) := by
  obtain ⟨hf, rfl⟩ := generate_data_inv _ _ _ _ _ _ h
  have hlen : (window_date_strings ds n).length =
      (compute_all_costs (parse_range_response rd n) dk n).length := by
    rw [length_window_date_strings, length_compute_all_costs]
  refine ⟨length_window_date_strings ds n, ?_, ?_, ?_, ?_⟩
  · rw [length_build_cost_table _ _ _ hlen, length_window_date_strings]
  · rw [length_build_percent_table _ _ _ hlen, length_compute_all_costs]
  · exact map_headq_build_percent_table _ _ _ hlen
  · intro co hco
    rw [generate_table_eq name n rd dk ds hf] at hco
    obtain rfl := (Option.some.injEq _ _).mp hco |>.symm
    rw [length_console_percent_table, length_compute_all_costs]

/-! ### C10: absent dates yield all-zero rows -/

/-- C10: the cost table always has one row per requested day (N rows, headed
by the window date strings) even when the response has no rows for a date; a
date key absent from the grouped response yields the all-zero breakdown
(which appears among the per-day breakdowns), and a delta against that
all-zero baseline follows the zero-baseline rule (0 if the current cost is
0, else +100). -/
theorem c10_absent_dates (name : String) (n : Nat) (rd : RangeProps)
    (dk : Nat → ℚ) (ds : Nat → String) (d : SubData)
    (h : generate_data_for_subscription name n (some rd) dk ds = GenResult.data d) :
    d.cost_table.length = n ∧
    d.cost_table.map List.head? = d.date_strings.map some ∧
    (∀ i < n, Cell.num (dk i) ∉ (parse_range_response rd n).map Prod.fst →
      process_cost_data (lookupRows (parse_range_response rd n) (Cell.num (dk i))) =
        zeroCosts ∧
      zeroCosts ∈ compute_all_costs (parse_range_response rd n) dk n) ∧
    (∀ (category : String) (curr : ℚ),
      percent_change (zeroCosts.get category) curr = if curr = 0 then 0 else 100) := by
  obtain ⟨hf, rfl⟩ := generate_data_inv _ _ _ _ _ _ h
  have hlen : (window_date_strings ds n).length =
      (compute_all_costs (parse_range_response rd n) dk n).length := by
    rw [length_window_date_strings, length_compute_all_costs]
  refine ⟨?_, ?_, ?_, ?_⟩
  · rw [length_build_cost_table _ _ _ hlen, length_window_date_strings]
  · exact map_headq_build_cost_table _ _ _ (le_of_eq hlen)
  · intro i hi hnot
    have hnil := lookupRows_eq_nil _ _ hnot
    have hzero : process_cost_data
        (lookupRows (parse_range_response rd n) (Cell.num (dk i))) = zeroCosts := by
      rw [hnil]; rfl
    refine ⟨hzero, ?_⟩
    unfold compute_all_costs
    exact List.mem_map.mpr ⟨i, by simp [hi], hzero⟩
  · intro category curr
    rw [zeroCosts_get, percent_change, if_pos rfl]

end CostReport

namespace CostReport

/-! ### C1: a failed subscription crashes document generation (code bug) -/

lemma gcdr_nonRateLimitFailure (t : List FetchOutcome) (h : NonRateLimitFailure t) :
    (get_cost_data_range t).2 = none := by
  cases h with
  | timeout => rfl
  | netError => rfl
  | badStatus status retryAfter body h429 h400 =>
    simp [get_cost_data_range, h429, h400]
  | badBody status retryAfter hlt =>
    have h429 : ¬ status = 429 := by omega
    have h400 : ¬ 400 ≤ status := by omega
    simp [get_cost_data_range, h429, h400]

lemma filterMap_console_names (f : String → Option ConsoleOut) (names : List String) :
    ((names.map fun nm => (nm, f nm)).filterMap fun pr =>
        if pr.2.isSome then some pr.1 else none) =
      names.filter fun nm => (f nm).isSome := by
  induction names with
  | nil => rfl
  | cons hd tl ih =>
    cases hgen : f hd <;>
      simp [List.filterMap_cons, List.filter_cons, hgen, ih]

lemma genResult_isTruthy (r : GenResult) : r.isTruthy = true := by
  cases r <;> rfl

lemma filterMap_some_fn {α β : Type} (f : α → β) (l : List α) :
    (l.filterMap fun a => some (f a)) = l.map f := by
  induction l with
  | nil => rfl
  | cons hd tl ih => simp [List.filterMap_cons, ih]

lemma filterMap_truthy_entries (g : String → GenResult) (names : List String) :
    (names.filterMap fun sub_name =>
        let data := g sub_name
        if data.isTruthy then some (sub_name, data) else none) =
      names.map fun sub_name => (sub_name, g sub_name) := by
  have hfn : (fun sub_name =>
      let data := g sub_name
      if data.isTruthy then some (sub_name, data) else none) =
      fun sub_name => some (sub_name, g sub_name) := by
    funext sub_name
    simp [genResult_isTruthy]
  rw [hfn, filterMap_some_fn]

lemma buildAllData_eq_map (fetch : String → Option RangeProps) (n : Nat)
    (dk : Nat → ℚ) (ds : Nat → String) :
    buildAllData fetch n dk ds = processOrder.map fun sub_name =>
      (sub_name, generate_data_for_subscription sub_name n (fetch sub_name) dk ds) :=
  filterMap_truthy_entries _ _

lemma lookupSub_map_entries (g : String → GenResult) (names : List String)
    (k : String) (hnd : names.Nodup) (hk : k ∈ names) :
    lookupSub (names.map fun nm => (nm, g nm)) k = some (g k) := by
  induction names with
  | nil => cases hk
  | cons hd tl ih =>
    have hhd : hd ∉ tl := (List.nodup_cons.mp hnd).1
    have htl : tl.Nodup := (List.nodup_cons.mp hnd).2
    rcases List.mem_cons.mp hk with rfl | hmem
    · simp [lookupSub]
    · have hne : k ≠ hd := fun he => hhd (he ▸ hmem)
      simp only [List.map_cons, lookupSub]
      rw [if_neg hne]
      exact ih htl hmem

lemma doc_step_none (ad : List (String × GenResult)) (sub_name : String) :
    doc_section_step ad none sub_name = none := rfl

lemma foldl_doc_step_none (ad : List (String × GenResult)) (l : List String) :
    l.foldl (doc_section_step ad) none = none := by
  induction l with
  | nil => rfl
  | cons hd tl ih => rw [List.foldl_cons, doc_step_none]; exact ih

lemma foldl_doc_step_crash (ad : List (String × GenResult)) (nm : String)
    (hlk : lookupSub ad nm = some GenResult.failureTuple) :
    ∀ (l : List String), nm ∈ l → ∀ (sections : List (String × SubData)),
      l.foldl (doc_section_step ad) (some sections) = none := by
  intro l
  induction l with
  | nil => intro h; cases h
  | cons hd tl ih =>
    intro hmem sections
    rw [List.foldl_cons]
    rcases List.mem_cons.mp hmem with rfl | hmem'
    · have hstep : doc_section_step ad (some sections) nm = none := by
        simp [doc_section_step, hlk, GenResult.isTruthy]
      rw [hstep]
      exact foldl_doc_step_none ad tl
    · cases hstep : doc_section_step ad (some sections) hd with
      | none => rw [foldl_doc_step_none]
      | some sections' => exact ih hmem' sections'

lemma mem_docOrder_of_mem_processOrder (nm : String) (h : nm ∈ processOrder) :
    nm ∈ docOrder := by
  simp only [processOrder, List.mem_cons, List.not_mem_nil, or_false] at h
  simp only [docOrder, List.mem_cons, List.not_mem_nil, or_false]
  tauto

/-- C1: the claim describes the intended skip behaviour, but the code
crashes instead. When the range fetch of one subscription fails for a
reason other than rate limiting and the other fetches succeed, the failure
value stored by the main loop is `return None, None` — the truthy tuple
`(None, None)` — so the failed subscription enters `all_data`; the document
section loop then reads `data["cost_table"]` on that tuple, raising an
uncaught TypeError, and `create_word_document` produces no document at all
(`none`), not even for the healthy subscriptions. Only the console pass
(which runs first) still prints tables for exactly the other three. -/
theorem c1_truthy_tuple_crash (fetch : String → Option RangeProps)
    (tr : String → List FetchOutcome) (n : Nat) (dk : Nat → ℚ) (ds : Nat → String)
    (failSub : String)
    (hfetch : ∀ nm, fetch nm = (get_cost_data_range (tr nm)).2)
    (hmem : failSub ∈ processOrder)
    (hfail : NonRateLimitFailure (tr failSub))
    (hok : ∀ nm ∈ processOrder, nm ≠ failSub →
      ∃ p, fetch nm = some p ∧ p.isFalsy = false) :
    generate_data_for_subscription failSub n (fetch failSub) dk ds =
      GenResult.failureTuple ∧
    GenResult.isTruthy GenResult.failureTuple = true ∧
    (buildAllData fetch n dk ds).map Prod.fst = processOrder ∧
    lookupSub (buildAllData fetch n dk ds) failSub = some GenResult.failureTuple ∧
    create_word_document (buildAllData fetch n dk ds) = none ∧
    ((runConsole fetch n dk ds).filterMap fun pr =>
        if pr.2.isSome then some pr.1 else none) =
      processOrder.filter (fun nm => nm != failSub) := by
  have hfailnone : fetch failSub = none := by
    rw [hfetch]; exact gcdr_nonRateLimitFailure _ hfail
  have hgenfail : generate_data_for_subscription failSub n (fetch failSub) dk ds =
      GenResult.failureTuple := by
    rw [hfailnone]; rfl
  have hbuild := buildAllData_eq_map fetch n dk ds
  have hnd : processOrder.Nodup := by decide
  have hlk : lookupSub (buildAllData fetch n dk ds) failSub =
      some GenResult.failureTuple := by
    rw [hbuild, lookupSub_map_entries _ _ _ hnd hmem, hgenfail]
  refine ⟨hgenfail, rfl, ?_, hlk, ?_, ?_⟩
  · have hcomp : (Prod.fst ∘ fun sub_name : String =>
        (sub_name, generate_data_for_subscription sub_name n (fetch sub_name) dk ds)) =
        id := rfl
    rw [hbuild, List.map_map, hcomp, List.map_id]
  · unfold create_word_document
    exact foldl_doc_step_crash _ _ hlk docOrder
      (mem_docOrder_of_mem_processOrder failSub hmem) []
  · rw [runConsole, filterMap_console_names]
    apply List.filter_congr
    intro nm hnm
    by_cases he : nm = failSub
    · subst he
      rw [hfailnone]
      simp [generate_table_for_subscription]
    · obtain ⟨p, hp, hfp⟩ := hok nm hnm he
      rw [hp, generate_table_eq nm n p dk ds hfp]
      simp [bne_iff_ne, he]

end CostReport

namespace CostReport

/-! ### Witness material -/

/-- A well-formed successful response with an empty row set. -/
def okProps : RangeProps := ⟨some ["Cost", "UsageDate", "ResourceType"], some []⟩

/-- A response whose properties lack the rows key (but are not falsy). -/
def noRowsProps : RangeProps := ⟨some ["Cost", "UsageDate", "ResourceType"], none⟩

/-- Witness date keys. -/
def wDateKey : Nat → ℚ := fun i => (i : ℚ)

/-- Witness date strings. -/
def wDateStr : Nat → String := fun i => toString i

/-- Witness traces: the range fetch of "main" times out, the others succeed. -/
def c1_traces : String → List FetchOutcome := fun nm =>
  if nm = "main" then [FetchOutcome.timeout]
  else [FetchOutcome.response 200 none (some okProps)]

/-- Witness fetch results induced by the traces. -/
def c1_fetch : String → Option RangeProps := fun nm => (get_cost_data_range (c1_traces nm)).2

theorem c1_truthy_tuple_crash_witness :
    NonRateLimitFailure (c1_traces "main") ∧
    ("main" ∈ processOrder) ∧
    (generate_data_for_subscription "main" 1 (c1_fetch "main") wDateKey wDateStr =
      GenResult.failureTuple ∧
    GenResult.isTruthy GenResult.failureTuple = true ∧
    (buildAllData c1_fetch 1 wDateKey wDateStr).map Prod.fst = processOrder ∧
    lookupSub (buildAllData c1_fetch 1 wDateKey wDateStr) "main" =
      some GenResult.failureTuple ∧
    create_word_document (buildAllData c1_fetch 1 wDateKey wDateStr) = none ∧
    ((runConsole c1_fetch 1 wDateKey wDateStr).filterMap fun pr =>
        if pr.2.isSome then some pr.1 else none) =
      processOrder.filter (fun nm => nm != "main")) := by
  have htr : c1_traces "main" = [FetchOutcome.timeout] := by with_unfolding_all rfl
  have hfail : NonRateLimitFailure (c1_traces "main") :=
    htr ▸ NonRateLimitFailure.timeout
  have hmem : ("main" : String) ∈ processOrder := by
    unfold processOrder
    exact List.mem_cons_self _ _
  refine ⟨hfail, hmem, ?_⟩
  refine c1_truthy_tuple_crash c1_fetch c1_traces 1 wDateKey wDateStr "main"
    (fun nm => rfl) hmem hfail ?_
  intro nm hnm hne
  refine ⟨okProps, ?_, rfl⟩
  show (get_cost_data_range (c1_traces nm)).2 = some okProps
  have htr' : c1_traces nm = [FetchOutcome.response 200 none (some okProps)] := by
    unfold c1_traces
    rw [if_neg hne]
  rw [htr']
  rfl

/-- The document data produced for "main" on the C4 witness inputs. -/
def c4w_data : SubData :=
  { cost_table := [["01/01", "$0.00", "$0.00", "$0.00"]]
    percent_table := []
    headers := ["Date", "Virtual Machine", "Storage", "Others"]
    date_strings := ["01/01"] }

theorem c4_exclusion_amended_witness :
    (generate_data_for_subscription "main" 1 (some okProps) c4_dateKey c4_dateStr =
      GenResult.data c4w_data) ∧
    ((c4w_data.headers = ["Date", "Virtual Machine", "Storage", "Others"] ↔
      ∀ c ∈ compute_all_costs (parse_range_response okProps 1) c4_dateKey 1,
        c.databricks ≤ 0) ∧
    ((∃ c ∈ compute_all_costs (parse_range_response okProps 1) c4_dateKey 1,
        0 < c.databricks) →
      c4w_data.headers = ["Date", "Databricks", "Virtual Machine", "Storage", "Others"]) ∧
    (∀ (name : String) (d' : SubData), name.toLower ≠ "main" →
      generate_data_for_subscription name 1 (some okProps) c4_dateKey c4_dateStr =
        GenResult.data d' →
      d'.headers = ["Date", "Databricks", "Virtual Machine", "Storage", "Others"])) := by
  have hgen : generate_data_for_subscription "main" 1 (some okProps) c4_dateKey c4_dateStr =
      GenResult.data c4w_data := by with_unfolding_all rfl
  exact ⟨hgen, c4_exclusion_amended 1 okProps c4_dateKey c4_dateStr c4w_data hgen⟩

theorem c7_console_doc_asymmetry_witness :
    okProps.isFalsy = false ∧
    ((∃ co, generate_table_for_subscription "main" 1 (some okProps) c4_dateKey
        c4_dateStr = some co ∧
      co.headers = ["Date", "Databricks", "Virtual Machine", "Storage", "Others"] ∧
      (∀ row ∈ co.table_data, row.length = 5) ∧
      (∀ row ∈ co.percent_table, row.length = 5)) ∧
    (∃ d, generate_data_for_subscription "main" 1 (some okProps) c4_dateKey
        c4_dateStr = GenResult.data d ∧
      d.headers = "Date" ::
        active_categories "main"
          (compute_all_costs (parse_range_response okProps 1) c4_dateKey 1) ∧
      ((("main" : String).toLower = "main" ∧
          ∀ c ∈ compute_all_costs (parse_range_response okProps 1) c4_dateKey 1,
            c.databricks ≤ 0) →
        d.headers.length = 4) ∧
      (¬ (("main" : String).toLower = "main" ∧
          ∀ c ∈ compute_all_costs (parse_range_response okProps 1) c4_dateKey 1,
            c.databricks ≤ 0) →
        d.headers.length = 5))) :=
  ⟨rfl, c7_console_doc_asymmetry "main" 1 okProps c4_dateKey c4_dateStr rfl⟩

/-- The document data produced on the C9 witness inputs (3-day window). -/
def c9w_data : SubData :=
  { cost_table := [["2", "$0.00", "$0.00", "$0.00", "$0.00"],
                   ["1", "$0.00", "$0.00", "$0.00", "$0.00"],
                   ["0", "$0.00", "$0.00", "$0.00", "$0.00"]]
    percent_table := [["1", "+0.00%", "+0.00%", "+0.00%", "+0.00%"],
                      ["0", "+0.00%", "+0.00%", "+0.00%", "+0.00%"]]
    headers := ["Date", "Databricks", "Virtual Machine", "Storage", "Others"]
    date_strings := ["2", "1", "0"] }

theorem c9_delta_row_count_witness :
    (1 ≤ 3) ∧
    (generate_data_for_subscription "prod" 3 (some okProps) wDateKey wDateStr =
      GenResult.data c9w_data) ∧
    (c9w_data.date_strings.length = 3 ∧
    c9w_data.cost_table.length = 3 ∧
    c9w_data.percent_table.length = 3 - 1 ∧
    c9w_data.percent_table.map List.head? = c9w_data.date_strings.tail.map some ∧
    (∀ co, generate_table_for_subscription "prod" 3 (some okProps) wDateKey wDateStr =
        some co →
      co.percent_table.length = 3 - 1)) := by
  have hgen : generate_data_for_subscription "prod" 3 (some okProps) wDateKey wDateStr =
      GenResult.data c9w_data := by with_unfolding_all rfl
  exact ⟨by decide, hgen,
    c9_delta_row_count "prod" 3 okProps wDateKey wDateStr c9w_data (by decide) hgen⟩

/-- The document data produced on the C10 witness inputs (2-day window,
response without a rows key). -/
def c10w_data : SubData :=
  { cost_table := [["1", "$0.00", "$0.00", "$0.00", "$0.00"],
                   ["0", "$0.00", "$0.00", "$0.00", "$0.00"]]
    percent_table := [["0", "+0.00%", "+0.00%", "+0.00%", "+0.00%"]]
    headers := ["Date", "Databricks", "Virtual Machine", "Storage", "Others"]
    date_strings := ["1", "0"] }

theorem c10_absent_dates_witness :
    (generate_data_for_subscription "test" 2 (some noRowsProps) wDateKey wDateStr =
      GenResult.data c10w_data) ∧
    (c10w_data.cost_table.length = 2 ∧
    c10w_data.cost_table.map List.head? = c10w_data.date_strings.map some ∧
    (∀ i < 2, Cell.num (wDateKey i) ∉ (parse_range_response noRowsProps 2).map Prod.fst →
      process_cost_data
          (lookupRows (parse_range_response noRowsProps 2) (Cell.num (wDateKey i))) =
        zeroCosts ∧
      zeroCosts ∈ compute_all_costs (parse_range_response noRowsProps 2) wDateKey 2) ∧
    (∀ (category : String) (curr : ℚ),
      percent_change (zeroCosts.get category) curr = if curr = 0 then 0 else 100)) := by
  have hgen : generate_data_for_subscription "test" 2 (some noRowsProps) wDateKey wDateStr =
      GenResult.data c10w_data := by with_unfolding_all rfl
  exact ⟨hgen, c10_absent_dates "test" 2 noRowsProps wDateKey wDateStr c10w_data hgen⟩

end CostReport
